import Mathlib

/-!
Verification of the MiniOS image/ISO assembly tools
(`tools/create_image.py`, `tools/create_iso.py`).

The Python functions are shallowly embedded as pure Lean functions:
file contents become `List Nat` byte sequences, sequential file writes
become list concatenation, and the environment visible to the ISO
packaging chain (which external tools `which` can find, their exit
codes, and whether the raw-fallback write raises an I/O error) becomes
an explicit record threaded through the chain.
-/

namespace MiniOS

/-- 1 MiB, the alignment unit used by `create_arm64_image`. -/
def MiB : Nat := 1024 * 1024

/-- `padding_needed = (1024 * 1024) - (current_size % (1024 * 1024))`
from `create_arm64_image` (create_image.py line 45). -/
def padding_needed (current_size : Nat) : Nat := MiB - current_size % MiB

/-- Number of zero bytes actually written after the bootloader:
the write happens only `if padding_needed < (1024 * 1024)`
(create_image.py lines 46-47). -/
def pad_to_1MiB (current_size : Nat) : Nat :=
  if padding_needed current_size < MiB then padding_needed current_size else 0

/-- The kernel offset is the file position after bootloader plus padding
(create_image.py line 50, `f.tell()`). -/
def kernel_offset (bootloader_size : Nat) : Nat :=
  bootloader_size + pad_to_1MiB bootloader_size

/-- Minimum raw image size, `16 * 1024 * 1024` (create_image.py line 56). -/
def raw_min_size : Nat := 16 * 1024 * 1024

/-- Final size of the raw image: the position after the kernel, zero-filled
up to the 16 MiB minimum if below it (create_image.py lines 54-60). -/
def total_size (bootloader_size kernel_size : Nat) : Nat :=
  let current := kernel_offset bootloader_size + kernel_size
  if current < raw_min_size then raw_min_size else current

/-- Bytes of the raw image written by `create_arm64_image` on its success
path (create_image.py lines 38-61): bootloader, zero padding to the 1 MiB
boundary, kernel, zero fill up to the 16 MiB minimum. -/
def create_arm64_image (bootloader_data kernel_data : List Nat) : List Nat :=
  let current := kernel_offset bootloader_data.length + kernel_data.length
  bootloader_data
    ++ List.replicate (pad_to_1MiB bootloader_data.length) 0
    ++ kernel_data
    ++ List.replicate (if current < raw_min_size then raw_min_size - current else 0) 0

/-- `create_arm64_image` including its failure paths (create_image.py
lines 21-35, 63-65): a missing kernel or bootloader file (`none` input)
or an `IOError` while writing returns `False`; success returns `True`
with the image bytes on disk. -/
def run_create_arm64_image (kernel_data bootloader_data : Option (List Nat))
    (io_ok : Bool) : Option (List Nat) :=
  match kernel_data with
  | none => none
  | some k =>
    match bootloader_data with
    | none => none
    | some b => if io_ok then some (create_arm64_image b k) else none

/-- `create_x86_64_image` (create_image.py lines 69-76): prints two notes,
then delegates unconditionally to `create_arm64_image` on the same
arguments. -/
def run_create_x86_64_image (kernel_data bootloader_data : Option (List Nat))
    (io_ok : Bool) : Option (List Nat) :=
  run_create_arm64_image kernel_data bootloader_data io_ok

/-- `roundUpToMultiple` as the spec words it: the smallest multiple of `m`
that is at least `n` (for `m > 0`). -/
def roundUpToMultiple (n m : Nat) : Nat := (n + m - 1) / m * m

/-- `(List.replicate n 0).getD i 0` is always `0`: in range it reads a
zero, out of range it falls back to the default. -/
theorem getD_replicate_zero (n i : Nat) :
    (List.replicate n (0 : Nat)).getD i 0 = 0 := by
  induction n generalizing i with
  | zero => simp
  | succ m ih =>
    cases i with
    | zero => simp [List.replicate]
    | succ j => simp [List.replicate, ih j]

theorem pad_to_1MiB_eq (b : Nat) :
    pad_to_1MiB b = roundUpToMultiple b 1048576 - b := by
  simp only [pad_to_1MiB, padding_needed, roundUpToMultiple, MiB]
  split <;> omega

theorem kernel_offset_eq (b : Nat) :
    kernel_offset b = roundUpToMultiple b 1048576 := by
  have h := pad_to_1MiB_eq b
  have hle : b ≤ roundUpToMultiple b 1048576 := by
    simp only [roundUpToMultiple]; omega
  simp only [kernel_offset]; omega

theorem length_create_arm64_image (b k : List Nat) :
    (create_arm64_image b k).length = total_size b.length k.length := by
  simp only [create_arm64_image, total_size, kernel_offset, List.length_append,
    List.length_replicate]
  split <;> omega

theorem create_arm64_image_getD_boot (b k : List Nat) (i : Nat) (h : i < b.length) :
    (create_arm64_image b k).getD i 0 = b.getD i 0 := by
  simp only [create_arm64_image]
  rw [List.append_assoc, List.append_assoc]
  exact List.getD_append _ _ _ _ h

theorem length_boot_pad (b : List Nat) :
    (b ++ List.replicate (pad_to_1MiB b.length) (0 : Nat)).length
      = kernel_offset b.length := by
  simp [kernel_offset]

theorem create_arm64_image_getD_kernel (b k : List Nat) (i : Nat) (h : i < k.length) :
    (create_arm64_image b k).getD (kernel_offset b.length + i) 0 = k.getD i 0 := by
  have hlen := length_boot_pad b
  simp only [create_arm64_image]
  rw [List.append_assoc]
  rw [List.getD_append_right _ _ _ _ (by rw [hlen]; omega)]
  rw [hlen]
  have hsub : kernel_offset b.length + i - kernel_offset b.length = i := by omega
  rw [hsub]
  exact List.getD_append _ _ _ _ h

theorem create_arm64_image_getD_gap (b k : List Nat) (i : Nat) (hb : b.length ≤ i)
    (h : i < kernel_offset b.length ∨ kernel_offset b.length + k.length ≤ i) :
    (create_arm64_image b k).getD i 0 = 0 := by
  have hlen := length_boot_pad b
  rcases h with h | h
  · simp only [create_arm64_image]
    rw [List.append_assoc, List.append_assoc]
    rw [List.getD_append_right _ _ _ _ hb]
    rw [List.getD_append _ _ _ _
      (by simp only [List.length_replicate]; simp only [kernel_offset] at h; omega)]
    exact getD_replicate_zero _ _
  · simp only [create_arm64_image]
    rw [List.append_assoc]
    rw [List.getD_append_right _ _ _ _ (by rw [hlen]; omega)]
    rw [hlen]
    rw [List.getD_append_right _ _ _ _ (by omega)]
    exact getD_replicate_zero _ _

/-- C1: the raw image has the bootloader bytes at offsets `[0, |bootloader|)`,
the kernel bytes at `[kernelOffset, kernelOffset + |kernel|)`, every other
byte `0`, and total length exactly `totalSize`; concretely, a 512-byte
bootloader with a 2 MiB kernel yields a 16 MiB image with the kernel at
offset 1 MiB. -/
theorem C1_raw_image_layout (b k : List Nat) :
    (create_arm64_image b k).length = total_size b.length k.length
    ∧ (∀ i, i < b.length → (create_arm64_image b k).getD i 0 = b.getD i 0)
    ∧ (∀ i, i < k.length →
        (create_arm64_image b k).getD (kernel_offset b.length + i) 0 = k.getD i 0)
    ∧ (∀ i, b.length ≤ i →
        (i < kernel_offset b.length ∨ kernel_offset b.length + k.length ≤ i) →
        (create_arm64_image b k).getD i 0 = 0)
    ∧ (b.length = 512 → k.length = 2097152 →
        (create_arm64_image b k).length = 16777216
        ∧ kernel_offset b.length = 1048576) := by
  refine ⟨length_create_arm64_image b k,
    fun i h => create_arm64_image_getD_boot b k i h,
    fun i h => create_arm64_image_getD_kernel b k i h,
    fun i hb h => create_arm64_image_getD_gap b k i hb h,
    fun hb hk => ?_⟩
  rw [length_create_arm64_image b k, hb, hk]
  constructor <;> decide

/-- Witness for C1: concrete instances discharging each hypothesis. -/
theorem C1_raw_image_layout_witness :
    (0 < ([1] : List Nat).length
      ∧ (create_arm64_image [1] [2]).getD 0 0 = ([1] : List Nat).getD 0 0
      ∧ (create_arm64_image [1] [2]).getD (kernel_offset 1 + 0) 0
          = ([2] : List Nat).getD 0 0
      ∧ (create_arm64_image [1] [2]).getD 5 0 = 0)
    ∧ ((List.replicate 512 (7 : Nat)).length = 512
      ∧ (List.replicate 2097152 (9 : Nat)).length = 2097152
      ∧ (create_arm64_image (List.replicate 512 7)
          (List.replicate 2097152 9)).length = 16777216) :=
  ⟨⟨by decide,
    (C1_raw_image_layout [1] [2]).2.1 0 (by decide),
    (C1_raw_image_layout [1] [2]).2.2.1 0 (by decide),
    (C1_raw_image_layout [1] [2]).2.2.2.1 5 (by decide) (Or.inl (by decide))⟩,
   ⟨List.length_replicate 512 7, List.length_replicate 2097152 9,
    ((C1_raw_image_layout (List.replicate 512 7) (List.replicate 2097152 9)).2.2.2.2
      (List.length_replicate 512 7) (List.length_replicate 2097152 9)).1⟩⟩

/-- C2: the kernel offset is the smallest multiple of 1 MiB that is at least
the bootloader size, and when the bootloader size is already a multiple of
1 MiB no padding is inserted and the offset equals it exactly. -/
theorem C2_kernel_offset_round_up (b : Nat) :
    1048576 ∣ kernel_offset b
    ∧ b ≤ kernel_offset b
    ∧ (∀ m, 1048576 ∣ m → b ≤ m → kernel_offset b ≤ m)
    ∧ (1048576 ∣ b → pad_to_1MiB b = 0 ∧ kernel_offset b = b) := by
  refine ⟨?_, ?_, fun m hm hbm => ?_, fun hb => ?_⟩ <;>
    simp only [kernel_offset, pad_to_1MiB, padding_needed, MiB] <;>
    split <;> omega

/-- Witness for C2: concrete instances discharging each hypothesis. -/
theorem C2_kernel_offset_round_up_witness :
    ((1048576 : Nat) ∣ 16777216 ∧ 512 ≤ 16777216 ∧ kernel_offset 512 ≤ 16777216)
    ∧ ((1048576 : Nat) ∣ 1048576 ∧ pad_to_1MiB 1048576 = 0
        ∧ kernel_offset 1048576 = 1048576) :=
  ⟨⟨⟨16, by norm_num⟩, by norm_num,
    (C2_kernel_offset_round_up 512).2.2.1 16777216 ⟨16, by norm_num⟩ (by norm_num)⟩,
   ⟨⟨1, by norm_num⟩,
    (C2_kernel_offset_round_up 1048576).2.2.2 ⟨1, by norm_num⟩⟩⟩

/-- C3 counterexample: with a 0-byte bootloader and a kernel of
16 MiB + 1 bytes, the code's total size is 16,777,217 — not rounded
up to a 1 MiB multiple, so `totalSize % 1MiB == 0` fails. -/
theorem C3_total_size_counterexample :
    total_size 0 16777217 = 16777217
    ∧ total_size 0 16777217
        ≠ roundUpToMultiple (kernel_offset 0 + 16777217) 1048576
    ∧ total_size 0 16777217 % 1048576 ≠ 0 := by
  refine ⟨by decide, by decide, by decide⟩

/-- C3 as amended: the total size is `max(kernelOffset + kernelSize, 16 MiB)`
with no rounding up to a 1 MiB multiple, so `totalSize ≥ kernelOffset +
kernelSize` and `totalSize ≥ 16 MiB` always hold, but `totalSize % 1MiB == 0`
is only guaranteed when `kernelOffset + kernelSize ≤ 16 MiB`. -/
theorem C3_total_size_amended (b k : Nat) :
    total_size b k = max (kernel_offset b + k) 16777216
    ∧ kernel_offset b + k ≤ total_size b k
    ∧ 16777216 ≤ total_size b k
    ∧ (kernel_offset b + k ≤ 16777216 → total_size b k % 1048576 = 0) := by
  simp only [total_size, raw_min_size]
  refine ⟨?_, ?_, ?_, fun h => ?_⟩ <;> split <;> omega

/-- Witness for C3 amended: concrete instance discharging the hypothesis. -/
theorem C3_total_size_amended_witness :
    kernel_offset 0 + 0 ≤ 16777216 ∧ total_size 0 0 % 1048576 = 0 :=
  ⟨by decide, (C3_total_size_amended 0 0).2.2.2 (by decide)⟩

/-- C10: building with `--arch x86_64` is a pure delegation to the arm64
raw builder — identical output bytes and identical success/failure result
for every input. -/
theorem C10_x86_64_delegates_to_arm64 (kernel_data bootloader_data : Option (List Nat))
    (io_ok : Bool) :
    run_create_x86_64_image kernel_data bootloader_data io_ok
      = run_create_arm64_image kernel_data bootloader_data io_ok
    ∧ ((run_create_x86_64_image kernel_data bootloader_data io_ok).isSome
        ↔ (run_create_arm64_image kernel_data bootloader_data io_ok).isSome) :=
  ⟨rfl, Iff.rfl⟩

/-- A `subprocess.run` call dispatched by create_iso.py: the argument
vector, whether output is captured, and the timeout argument.  Every call
site in the source passes `capture_output=True` and omits `timeout`, so
there the timeout field is `none`. -/
structure SubprocessCall where
  cmd : List String
  capture_output : Bool
  timeout : Option Nat
deriving DecidableEq

/-- Where the raw-fallback's file I/O raises inside `create_simple_iso`:
either opening `output_path` itself fails (no file is created), or an
exception is raised after `k` of its sequential writes have reached the
file (the partial file persists — the `except` handler removes nothing). -/
inductive SimpleIsoFail where
  | openFail : SimpleIsoFail
  | writeFail (k : Nat) : SimpleIsoFail
deriving DecidableEq

/-- Host environment visible to create_iso.py: which tool names `which`
finds (exit status 0), the exit status of each tool when invoked, and
whether/where the raw fallback's own I/O raises. -/
structure Env where
  available : String → Bool
  exit_code : String → Nat
  simple_iso_fail : Option SimpleIsoFail

/-- The `grub-mkrescue -o output_path temp_dir` invocation
(create_iso.py line 64, run at line 67 with no timeout argument). -/
def grub_call (output_path temp_dir : String) : SubprocessCall :=
  ⟨["grub-mkrescue", "-o", output_path, temp_dir], true, none⟩

/-- `create_iso_with_grub` (create_iso.py lines 53-77): probe
`which grub-mkrescue`; if absent, return `False` without invoking the
tool; otherwise invoke it and succeed iff its exit status is 0.  Returns
the result together with the packaging-tool invocations dispatched. -/
def create_iso_with_grub (env : Env) (temp_dir output_path : String) :
    Bool × List SubprocessCall :=
  if env.available "grub-mkrescue" then
    (env.exit_code "grub-mkrescue" == 0, [grub_call output_path temp_dir])
  else
    (false, [])

/-- The El Torito invocation built by `create_iso_with_mkisofs`
(create_iso.py lines 89-97), run with no timeout argument. -/
def mkisofs_call (cmd_name output_path temp_dir : String) : SubprocessCall :=
  ⟨[cmd_name, "-b", "boot/bootloader.bin", "-no-emul-boot",
    "-boot-load-size", "4", "-boot-info-table", "-o", output_path, temp_dir],
   true, none⟩

/-- The `for cmd_name in ['mkisofs', 'genisoimage']` loop of
`create_iso_with_mkisofs` (create_iso.py lines 84-106): names that `which`
does not find are skipped; an available name is invoked; exit status 0
returns `True` immediately, a non-zero exit prints the error and the loop
continues with the next name. -/
def mkisofs_loop (env : Env) (temp_dir output_path : String) :
    List String → Bool × List SubprocessCall
  | [] => (false, [])
  | cmd_name :: rest =>
    if env.available cmd_name then
      if env.exit_code cmd_name == 0 then
        (true, [mkisofs_call cmd_name output_path temp_dir])
      else
        let r := mkisofs_loop env temp_dir output_path rest
        (r.fst, mkisofs_call cmd_name output_path temp_dir :: r.snd)
    else
      mkisofs_loop env temp_dir output_path rest

/-- `create_iso_with_mkisofs` (create_iso.py lines 79-112). -/
def create_iso_with_mkisofs (env : Env) (temp_dir output_path : String) :
    Bool × List SubprocessCall :=
  mkisofs_loop env temp_dir output_path ["mkisofs", "genisoimage"]

/-- Padding to the next 512-byte sector boundary in `create_simple_iso`
(create_iso.py lines 127-132): `padding = 512 - pos % 512`, written only
`if padding != sector_size`. -/
def pad_to_sector (current_pos : Nat) : Nat :=
  if 512 - current_pos % 512 ≠ 512 then 512 - current_pos % 512 else 0

/-- Minimum size of the fallback image, `2 * 1024 * 1024`
(create_iso.py line 141). -/
def iso_min_size : Nat := 2 * 1024 * 1024

/-- The four sequential writes of `create_simple_iso` (create_iso.py lines
121-143): bootloader, zero padding to the 512-byte boundary, kernel, zero
fill up to the 2 MiB minimum. -/
def simple_iso_writes (bootloader_data kernel_data : List Nat) :
    List (List Nat) :=
  let p := pad_to_sector bootloader_data.length
  let current := bootloader_data.length + p + kernel_data.length
  [bootloader_data, List.replicate p 0, kernel_data,
   List.replicate (if current < iso_min_size then iso_min_size - current else 0) 0]

/-- Bytes of the fallback image on the success path of
`create_simple_iso`. -/
def simple_iso_bytes (bootloader_data kernel_data : List Nat) : List Nat :=
  (simple_iso_writes bootloader_data kernel_data).flatten

/-- `create_simple_iso` (create_iso.py lines 114-149) with its I/O made
explicit: opening `output_path` with mode `wb` creates/truncates the file,
the writes then append in order, and an exception anywhere is caught by
the `except` handler, which returns `False` without deleting whatever was
already written.  Result: success flag and the file state at
`output_path`. -/
def create_simple_iso (kernel_data bootloader_data : List Nat) :
    Option SimpleIsoFail → Bool × Option (List Nat)
  | some .openFail => (false, none)
  | some (.writeFail k) =>
    (false, some (((simple_iso_writes bootloader_data kernel_data).take k).flatten))
  | none => (true, some (simple_iso_bytes bootloader_data kernel_data))

/-- State of the file at `output_path` after the packaging chain ran.
A failing external tool is modelled as leaving the file absent (the
tools' own partial output is outside this program). -/
inductive OutFile where
  | absent : OutFile
  | toolWritten : OutFile
  | rawBytes (data : List Nat) : OutFile
deriving DecidableEq

/-- The strategy chain of `main` (create_iso.py lines 191-214): try
`create_iso_with_grub`, then `create_iso_with_mkisofs`, then fall back to
`create_simple_iso`; the first success wins.  Returns the overall result,
the file state at `output_path`, and the packaging-tool invocations
dispatched by the first two strategies. -/
def iso_main_chain (env : Env) (kernel_data bootloader_data : List Nat)
    (temp_dir output_path : String) : Bool × OutFile × List SubprocessCall :=
  let g := create_iso_with_grub env temp_dir output_path
  if g.fst then (true, .toolWritten, g.snd)
  else
    let m := create_iso_with_mkisofs env temp_dir output_path
    if m.fst then (true, .toolWritten, g.snd ++ m.snd)
    else
      let s := create_simple_iso kernel_data bootloader_data env.simple_iso_fail
      (s.fst,
       (match s.snd with
        | none => OutFile.absent
        | some d => OutFile.rawBytes d),
       g.snd ++ m.snd)

/-- Tool names that `which` finds, in probe order. -/
def available_tools (env : Env) (names : List String) : List String :=
  names.filter (fun n => env.available n)

/-- Of a list of available tools, those actually invoked: every tool up to
and including the first whose exit status is 0. -/
def tried_until_success (env : Env) : List String → List String
  | [] => []
  | n :: rest =>
    if env.exit_code n == 0 then [n] else n :: tried_until_success env rest

theorem mkisofs_loop_fst (env : Env) (temp_dir output_path : String)
    (names : List String) :
    (mkisofs_loop env temp_dir output_path names).fst
      = (available_tools env names).any (fun n => env.exit_code n == 0) := by
  induction names with
  | nil => rfl
  | cons n rest ih =>
    by_cases hn : env.available n
    · by_cases he : env.exit_code n = 0
      · simp [mkisofs_loop, available_tools, hn, he]
      · simp [mkisofs_loop, available_tools, hn, he, ih]
    · simp [mkisofs_loop, available_tools, hn, ih]

theorem mkisofs_loop_snd (env : Env) (temp_dir output_path : String)
    (names : List String) :
    (mkisofs_loop env temp_dir output_path names).snd
      = (tried_until_success env (available_tools env names)).map
          (fun n => mkisofs_call n output_path temp_dir) := by
  induction names with
  | nil => rfl
  | cons n rest ih =>
    by_cases hn : env.available n
    · by_cases he : env.exit_code n = 0
      · simp [mkisofs_loop, available_tools, tried_until_success, hn, he]
      · simp [mkisofs_loop, available_tools, tried_until_success, hn, he, ih]
    · simp [mkisofs_loop, available_tools, hn, ih]

theorem mkisofs_loop_mem (env : Env) (temp_dir output_path : String)
    (names : List String) (c : SubprocessCall)
    (hc : c ∈ (mkisofs_loop env temp_dir output_path names).snd) :
    ∃ n, n ∈ names ∧ c = mkisofs_call n output_path temp_dir := by
  induction names with
  | nil => simp [mkisofs_loop] at hc
  | cons n rest ih =>
    by_cases hn : env.available n
    · by_cases he : env.exit_code n = 0
      · simp [mkisofs_loop, hn, he] at hc
        exact ⟨n, by simp, hc⟩
      · simp [mkisofs_loop, hn, he] at hc
        rcases hc with hc | hc
        · exact ⟨n, by simp, hc⟩
        · rcases ih hc with ⟨m, hm, hcm⟩
          exact ⟨m, by simp [hm], hcm⟩
    · simp [mkisofs_loop, hn] at hc
      rcases ih hc with ⟨m, hm, hcm⟩
      exact ⟨m, by simp [hm], hcm⟩

/-- Host with no packaging tools where the raw fallback's write raises
after its first write (the bootloader bytes reached the file). -/
def env_no_tools_badio : Env :=
  ⟨fun _ => false, fun _ => 1, some (.writeFail 1)⟩

/-- Host with no packaging tools and working I/O. -/
def env_no_tools_ok : Env :=
  ⟨fun _ => false, fun _ => 0, none⟩

/-- Host where only grub-mkrescue is installed, and it succeeds. -/
def env_only_grub : Env :=
  ⟨fun s => s == "grub-mkrescue", fun _ => 0, none⟩

/-- Host where only genisoimage is installed, and it succeeds. -/
def env_only_geniso : Env :=
  ⟨fun s => s == "genisoimage", fun _ => 0, none⟩

/-- Host where mkisofs and genisoimage are both installed; mkisofs exits 1
and genisoimage exits 0. -/
def env_mkisofs_fails : Env :=
  ⟨fun s => s == "mkisofs" || s == "genisoimage",
   fun s => if s == "mkisofs" then 1 else 0, none⟩

/-- Host where every tool is installed but exits 1, and the raw fallback
cannot even open the output path. -/
def env_tools_fail : Env :=
  ⟨fun _ => true, fun _ => 1, some .openFail⟩

/-- C4 counterexample: on a host with no packaging tools where the raw
fallback's own write raises, the overall result is failure — refuting
"the overall result is success" for every no-tool build. -/
theorem C4_no_tools_counterexample :
    env_no_tools_badio.available "grub-mkrescue" = false
    ∧ env_no_tools_badio.available "mkisofs" = false
    ∧ env_no_tools_badio.available "genisoimage" = false
    ∧ (iso_main_chain env_no_tools_badio [2] [7] "staging" "out.iso").fst
        = false := by
  refine ⟨rfl, rfl, rfl, rfl⟩

/-- C4 as amended: the chain tries GrubRescue, then GenericIsoMaster, then
RawFallback, and returns the first success; with no packaging tool
available, the first two strategies fail without dispatching any
invocation, RawFallback is selected, and the overall result is success
provided RawFallback's own write does not raise. -/
theorem C4_chain_order_amended (k b : List Nat) (tmp out : String) :
    (∀ env : Env, (create_iso_with_grub env tmp out).fst = true →
      iso_main_chain env k b tmp out
        = (true, OutFile.toolWritten, (create_iso_with_grub env tmp out).snd))
    ∧ (∀ env : Env, (create_iso_with_grub env tmp out).fst = false →
        (create_iso_with_mkisofs env tmp out).fst = true →
        iso_main_chain env k b tmp out
          = (true, OutFile.toolWritten,
             (create_iso_with_grub env tmp out).snd
               ++ (create_iso_with_mkisofs env tmp out).snd))
    ∧ (∀ env : Env, (create_iso_with_grub env tmp out).fst = false →
        (create_iso_with_mkisofs env tmp out).fst = false →
        (iso_main_chain env k b tmp out).fst
          = (create_simple_iso k b env.simple_iso_fail).fst)
    ∧ (∀ env : Env, env.available "grub-mkrescue" = false →
        env.available "mkisofs" = false →
        env.available "genisoimage" = false →
        create_iso_with_grub env tmp out = (false, [])
        ∧ create_iso_with_mkisofs env tmp out = (false, [])
        ∧ (iso_main_chain env k b tmp out).2.2 = []
        ∧ (env.simple_iso_fail = none →
            iso_main_chain env k b tmp out
              = (true, OutFile.rawBytes (simple_iso_bytes b k), []))) := by
  refine ⟨fun env hg => ?_, fun env hg hm => ?_, fun env hg hm => ?_,
    fun env h1 h2 h3 => ?_⟩
  · simp [iso_main_chain, hg]
  · simp [iso_main_chain, hg, hm]
  · simp [iso_main_chain, hg, hm]
  · have hG : create_iso_with_grub env tmp out = (false, []) := by
      simp [create_iso_with_grub, h1]
    have hM : create_iso_with_mkisofs env tmp out = (false, []) := by
      simp [create_iso_with_mkisofs, mkisofs_loop, h2, h3]
    refine ⟨hG, hM, ?_, fun hf => ?_⟩
    · simp [iso_main_chain, hG, hM]
    · simp [iso_main_chain, hG, hM, create_simple_iso, hf]

/-- Witness for C4 amended: concrete hosts discharging each hypothesis. -/
theorem C4_chain_order_amended_witness :
    ((create_iso_with_grub env_only_grub "t" "o").fst = true
      ∧ iso_main_chain env_only_grub [2] [7] "t" "o"
          = (true, OutFile.toolWritten,
             (create_iso_with_grub env_only_grub "t" "o").snd))
    ∧ (env_no_tools_ok.available "grub-mkrescue" = false
      ∧ env_no_tools_ok.available "mkisofs" = false
      ∧ env_no_tools_ok.available "genisoimage" = false
      ∧ env_no_tools_ok.simple_iso_fail = none
      ∧ iso_main_chain env_no_tools_ok [2] [7] "t" "o"
          = (true, OutFile.rawBytes (simple_iso_bytes [7] [2]), [])) :=
  ⟨⟨by decide,
    (C4_chain_order_amended [2] [7] "t" "o").1 env_only_grub (by decide)⟩,
   ⟨rfl, rfl, rfl, rfl,
    ((C4_chain_order_amended [2] [7] "t" "o").2.2.2 env_no_tools_ok
        rfl rfl rfl).2.2.2 rfl⟩⟩

/-- C5 counterexample: with no tools available and the raw fallback's
write raising after the bootloader write, the chain fails but a partial
(truncated) file remains at the output path — refuting "no file exists at
outputPath afterwards". -/
theorem C5_partial_file_counterexample :
    (iso_main_chain env_no_tools_badio [2] [7] "t" "o").fst = false
    ∧ (iso_main_chain env_no_tools_badio [2] [7] "t" "o").2.1
        = OutFile.rawBytes [7]
    ∧ (iso_main_chain env_no_tools_badio [2] [7] "t" "o").2.1
        ≠ OutFile.absent := by
  refine ⟨rfl, by decide, by decide⟩

/-- C5 as amended: when every strategy fails the chain returns the
aggregate failure; if RawFallback failed to open the output no file
exists, but an I/O failure during writing leaves the partial prefix of
its writes at the output path — file existence is not a success signal. -/
theorem C5_exhaustion_amended (env : Env) (k b : List Nat) (tmp out : String)
    (f : SimpleIsoFail)
    (hg : env.available "grub-mkrescue" = true →
      env.exit_code "grub-mkrescue" ≠ 0)
    (hm : env.available "mkisofs" = true → env.exit_code "mkisofs" ≠ 0)
    (hgi : env.available "genisoimage" = true →
      env.exit_code "genisoimage" ≠ 0)
    (hf : env.simple_iso_fail = some f) :
    (iso_main_chain env k b tmp out).fst = false
    ∧ (f = SimpleIsoFail.openFail →
        (iso_main_chain env k b tmp out).2.1 = OutFile.absent)
    ∧ (∀ j, f = SimpleIsoFail.writeFail j →
        (iso_main_chain env k b tmp out).2.1
          = OutFile.rawBytes (((simple_iso_writes b k).take j).flatten)) := by
  have hG : (create_iso_with_grub env tmp out).fst = false := by
    by_cases h : env.available "grub-mkrescue"
    · simp [create_iso_with_grub, h, hg h]
    · simp [create_iso_with_grub, h]
  have hM : (create_iso_with_mkisofs env tmp out).fst = false := by
    rw [create_iso_with_mkisofs, mkisofs_loop_fst]
    by_cases h1 : env.available "mkisofs" <;>
      by_cases h2 : env.available "genisoimage"
    · simp [available_tools, h1, h2, hm h1, hgi h2]
    · simp [available_tools, h1, h2, hm h1]
    · simp [available_tools, h1, h2, hgi h2]
    · simp [available_tools, h1, h2]
  refine ⟨?_, fun hfo => ?_, fun j hfj => ?_⟩
  · simp only [iso_main_chain, hG, hM]
    cases f <;> simp [create_simple_iso, hf]
  · subst hfo
    simp [iso_main_chain, hG, hM, create_simple_iso, hf]
  · subst hfj
    simp [iso_main_chain, hG, hM, create_simple_iso, hf]

/-- Witness for C5 amended: a host where every tool is installed but
fails, and the fallback cannot open the output. -/
theorem C5_exhaustion_amended_witness :
    (env_tools_fail.available "grub-mkrescue" = true →
      env_tools_fail.exit_code "grub-mkrescue" ≠ 0)
    ∧ (env_tools_fail.available "mkisofs" = true →
      env_tools_fail.exit_code "mkisofs" ≠ 0)
    ∧ (env_tools_fail.available "genisoimage" = true →
      env_tools_fail.exit_code "genisoimage" ≠ 0)
    ∧ env_tools_fail.simple_iso_fail = some SimpleIsoFail.openFail
    ∧ (iso_main_chain env_tools_fail [2] [7] "t" "o").fst = false
    ∧ (iso_main_chain env_tools_fail [2] [7] "t" "o").2.1
        = OutFile.absent :=
  ⟨fun _ => by decide, fun _ => by decide, fun _ => by decide, rfl,
   (C5_exhaustion_amended env_tools_fail [2] [7] "t" "o" .openFail
     (fun _ => by decide) (fun _ => by decide) (fun _ => by decide) rfl).1,
   (C5_exhaustion_amended env_tools_fail [2] [7] "t" "o" .openFail
     (fun _ => by decide) (fun _ => by decide) (fun _ => by decide) rfl).2.1 rfl⟩

/-- C6 counterexample: with mkisofs and genisoimage both installed,
mkisofs exiting 1 and genisoimage exiting 0, the strategy succeeds and
dispatches two invocations — so the first available tool's exit status
does not alone determine success or failure. -/
theorem C6_first_tool_counterexample :
    env_mkisofs_fails.available "mkisofs" = true
    ∧ env_mkisofs_fails.exit_code "mkisofs" ≠ 0
    ∧ (create_iso_with_mkisofs env_mkisofs_fails "t" "o").fst = true
    ∧ (create_iso_with_mkisofs env_mkisofs_fails "t" "o").snd
        = [mkisofs_call "mkisofs" "o" "t",
           mkisofs_call "genisoimage" "o" "t"] := by
  refine ⟨by decide, by decide, by decide, by decide⟩

/-- C6 as amended: the strategy probes exactly mkisofs then genisoimage;
every invocation it dispatches carries exactly the El Torito parameters
(boot image `boot/bootloader.bin`, no emulation, 4-sector load size,
boot-info-table flag); it invokes each available tool in order up to and
including the first that exits 0, and succeeds iff some available tool
exits 0 — a failing first tool falls through to the second. -/
theorem C6_el_torito_amended (env : Env) (temp_dir output_path : String) :
    (create_iso_with_mkisofs env temp_dir output_path).fst
      = (available_tools env ["mkisofs", "genisoimage"]).any
          (fun n => env.exit_code n == 0)
    ∧ (create_iso_with_mkisofs env temp_dir output_path).snd
      = (tried_until_success env
          (available_tools env ["mkisofs", "genisoimage"])).map
          (fun n => mkisofs_call n output_path temp_dir)
    ∧ (∀ c ∈ (create_iso_with_mkisofs env temp_dir output_path).snd,
        c.capture_output = true ∧ c.timeout = none
        ∧ ∃ n, (n = "mkisofs" ∨ n = "genisoimage")
            ∧ c.cmd = [n, "-b", "boot/bootloader.bin", "-no-emul-boot",
                "-boot-load-size", "4", "-boot-info-table", "-o",
                output_path, temp_dir]) := by
  refine ⟨mkisofs_loop_fst env temp_dir output_path _,
    mkisofs_loop_snd env temp_dir output_path _, fun c hc => ?_⟩
  rcases mkisofs_loop_mem env temp_dir output_path _ c hc with ⟨n, hn, rfl⟩
  refine ⟨rfl, rfl, n, ?_, rfl⟩
  simpa using hn

/-- Witness for C6 amended: concrete instance discharging the
membership hypothesis. -/
theorem C6_el_torito_amended_witness :
    mkisofs_call "genisoimage" "o" "t"
        ∈ (create_iso_with_mkisofs env_only_geniso "t" "o").snd
    ∧ (mkisofs_call "genisoimage" "o" "t").capture_output = true
    ∧ (mkisofs_call "genisoimage" "o" "t").timeout = none :=
  ⟨by decide,
   ((C6_el_torito_amended env_only_geniso "t" "o").2.2 _ (by decide)).1,
   ((C6_el_torito_amended env_only_geniso "t" "o").2.2 _ (by decide)).2.1⟩

/-- C9 counterexample: the packaging-tool invocations are dispatched with
no timeout argument at all (`subprocess.run` is called without `timeout`),
so no enforced timeout exists — refuting "dispatched with an enforced
timeout". -/
theorem C9_no_timeout_counterexample :
    (create_iso_with_grub env_only_grub "t" "o").snd.map
        SubprocessCall.timeout = [none]
    ∧ (create_iso_with_mkisofs env_mkisofs_fails "t" "o").snd.map
        SubprocessCall.timeout = [none, none] := by
  refine ⟨by decide, by decide⟩

/-- C9 as amended: every external-tool invocation made by the packaging
strategies is a blocking `subprocess.run` call dispatched with NO timeout
(none is enforced, so a hung tool is never interrupted); a non-zero exit
status makes the strategy report failure, and the chain then proceeds to
the next strategy. -/
theorem C9_blocking_no_timeout_amended (env : Env) (k b : List Nat)
    (tmp out : String) :
    (∀ c ∈ (create_iso_with_grub env tmp out).snd,
      c.capture_output = true ∧ c.timeout = none)
    ∧ (∀ c ∈ (create_iso_with_mkisofs env tmp out).snd,
      c.capture_output = true ∧ c.timeout = none)
    ∧ (env.exit_code "grub-mkrescue" ≠ 0 →
        (create_iso_with_grub env tmp out).fst = false)
    ∧ (env.exit_code "mkisofs" ≠ 0 → env.exit_code "genisoimage" ≠ 0 →
        (create_iso_with_mkisofs env tmp out).fst = false)
    ∧ (env.exit_code "grub-mkrescue" ≠ 0 → env.exit_code "mkisofs" ≠ 0 →
        env.exit_code "genisoimage" ≠ 0 →
        (iso_main_chain env k b tmp out).fst
          = (create_simple_iso k b env.simple_iso_fail).fst) := by
  have grub_fst : env.exit_code "grub-mkrescue" ≠ 0 →
      (create_iso_with_grub env tmp out).fst = false := by
    intro hge
    by_cases h : env.available "grub-mkrescue"
    · simp [create_iso_with_grub, h, hge]
    · simp [create_iso_with_grub, h]
  have mkisofs_fst : env.exit_code "mkisofs" ≠ 0 →
      env.exit_code "genisoimage" ≠ 0 →
      (create_iso_with_mkisofs env tmp out).fst = false := by
    intro hme hgie
    rw [create_iso_with_mkisofs, mkisofs_loop_fst]
    by_cases h1 : env.available "mkisofs" <;>
      by_cases h2 : env.available "genisoimage"
    · simp [available_tools, h1, h2, hme, hgie]
    · simp [available_tools, h1, h2, hme]
    · simp [available_tools, h1, h2, hgie]
    · simp [available_tools, h1, h2]
  refine ⟨fun c hc => ?_, fun c hc => ?_, grub_fst,
    mkisofs_fst, fun hge hme hgie => ?_⟩
  · by_cases h : env.available "grub-mkrescue"
    · simp [create_iso_with_grub, h] at hc
      subst hc
      exact ⟨rfl, rfl⟩
    · simp [create_iso_with_grub, h] at hc
  · rcases mkisofs_loop_mem env tmp out _ c hc with ⟨n, _, rfl⟩
    exact ⟨rfl, rfl⟩
  · simp [iso_main_chain, grub_fst hge, mkisofs_fst hme hgie]

/-- Witness for C9 amended: a host where all tools are installed but
exit 1. -/
theorem C9_blocking_no_timeout_amended_witness :
    grub_call "o" "t" ∈ (create_iso_with_grub env_tools_fail "t" "o").snd
    ∧ (grub_call "o" "t").timeout = none
    ∧ env_tools_fail.exit_code "grub-mkrescue" ≠ 0
    ∧ (create_iso_with_grub env_tools_fail "t" "o").fst = false
    ∧ (create_iso_with_mkisofs env_tools_fail "t" "o").fst = false :=
  ⟨by decide,
   ((C9_blocking_no_timeout_amended env_tools_fail [2] [7] "t" "o").1 _
     (by decide)).2,
   by decide,
   (C9_blocking_no_timeout_amended env_tools_fail [2] [7] "t" "o").2.2.1
     (by decide),
   (C9_blocking_no_timeout_amended env_tools_fail [2] [7] "t" "o").2.2.2.1
     (by decide) (by decide)⟩

/-- A file in the ISO staging tree: binary (copied bytes) or text. -/
inductive FsEntry where
  | binFile (data : List Nat) : FsEntry
  | txtFile (text : String) : FsEntry
deriving DecidableEq

/-- The grub.cfg text written verbatim by `create_iso_structure`
(create_iso.py lines 36-48). -/
def grub_cfg_text : String :=
  "set timeout=5\nset default=0\n\nmenuentry \"MiniOS\" \x7b\n    multiboot2 /boot/kernel.elf\n    boot\n\x7d\n\nmenuentry \"MiniOS (Debug)\" \x7b\n    multiboot2 /boot/kernel.elf debug\n    boot\n\x7d\n"

/-- `create_iso_structure` (create_iso.py lines 15-51): the staging tree
it builds under the temporary directory, as relative path ↦ content.  The
kernel and bootloader are copied (`shutil.copy2`), so the tree holds the
same bytes as the inputs and the input files themselves are untouched. -/
def create_iso_structure (kernel_data bootloader_data : List Nat) :
    List (String × FsEntry) :=
  [("boot/kernel.elf", FsEntry.binFile kernel_data),
   ("boot/bootloader.bin", FsEntry.binFile bootloader_data),
   ("boot/grub/grub.cfg", FsEntry.txtFile grub_cfg_text)]

/-- Substring test on character lists: `pat` occurs contiguously in `l`. -/
def charsContain : List Char → List Char → Bool
  | [], pat => pat.isEmpty
  | c :: t, pat => pat.isPrefixOf (c :: t) || charsContain t pat

/-- Substring test on strings. -/
def str_contains (s pat : String) : Bool := charsContain s.data pat.data

/-- C7: the staging tree consists of exactly `boot/kernel.elf` (a copy of
the kernel bytes), `boot/bootloader.bin` (a copy of the bootloader bytes)
and `boot/grub/grub.cfg`, whose text contains a normal and a debug-flagged
menu entry, both loading the staged kernel via `multiboot2`; inputs are
copied, never mutated. -/
theorem C7_iso_staging_tree (kernel_data bootloader_data : List Nat) :
    (create_iso_structure kernel_data bootloader_data).map Prod.fst
      = ["boot/kernel.elf", "boot/bootloader.bin", "boot/grub/grub.cfg"]
    ∧ ("boot/kernel.elf", FsEntry.binFile kernel_data)
        ∈ create_iso_structure kernel_data bootloader_data
    ∧ ("boot/bootloader.bin", FsEntry.binFile bootloader_data)
        ∈ create_iso_structure kernel_data bootloader_data
    ∧ ("boot/grub/grub.cfg", FsEntry.txtFile grub_cfg_text)
        ∈ create_iso_structure kernel_data bootloader_data
    ∧ str_contains grub_cfg_text
        "menuentry \"MiniOS\" \x7b\n    multiboot2 /boot/kernel.elf\n    boot\n\x7d"
        = true
    ∧ str_contains grub_cfg_text
        "menuentry \"MiniOS (Debug)\" \x7b\n    multiboot2 /boot/kernel.elf debug\n    boot\n\x7d"
        = true := by
  refine ⟨rfl, by simp [create_iso_structure], by simp [create_iso_structure],
    by simp [create_iso_structure], by decide, by decide⟩

theorem pad_to_sector_eq (b : Nat) :
    pad_to_sector b = roundUpToMultiple b 512 - b := by
  simp only [pad_to_sector, roundUpToMultiple]
  split <;> omega

/-- Modelled on the spec's shared `LayoutPolicy`/`RawImageAssembler` for
the refinement claim C8: bootloader at offset 0, zero padding up to
`roundUpToMultiple(bootloaderSize, align)`, kernel, zero fill up to
`max(kernelOffset + kernelSize, minSize)`. -/
def raw_image_assembler (align min_total : Nat)
    (bootloader_data kernel_data : List Nat) : List Nat :=
  let ko := roundUpToMultiple bootloader_data.length align
  let total := max (ko + kernel_data.length) min_total
  bootloader_data
    ++ List.replicate (ko - bootloader_data.length) 0
    ++ kernel_data
    ++ List.replicate (total - (ko + kernel_data.length)) 0

/-- C8: the primary raw-image path and the ISO raw-fallback path share the
same layout math — both are the generic assembler, the primary at 1 MiB
alignment with a 16 MiB minimum, the fallback at 512-byte alignment with
a 2 MiB minimum. -/
theorem C8_shared_layout_math (b k : List Nat) :
    create_arm64_image b k = raw_image_assembler 1048576 16777216 b k
    ∧ simple_iso_bytes b k = raw_image_assembler 512 2097152 b k := by
  constructor
  · have e2 : (if kernel_offset b.length + k.length < 16 * 1024 * 1024
        then 16 * 1024 * 1024 - (kernel_offset b.length + k.length) else 0)
        = max (roundUpToMultiple b.length 1048576 + k.length) 16777216
            - (roundUpToMultiple b.length 1048576 + k.length) := by
      rw [kernel_offset_eq]
      split <;> omega
    simp only [create_arm64_image, raw_image_assembler, raw_min_size]
    rw [e2, pad_to_1MiB_eq]
  · have hle : b.length ≤ roundUpToMultiple b.length 512 := by
      simp only [roundUpToMultiple]; omega
    have e2 : b.length + pad_to_sector b.length
        = roundUpToMultiple b.length 512 := by
      have := pad_to_sector_eq b.length
      omega
    have e3 : (if b.length + pad_to_sector b.length + k.length
          < 2 * 1024 * 1024
        then 2 * 1024 * 1024
            - (b.length + pad_to_sector b.length + k.length) else 0)
        = max (roundUpToMultiple b.length 512 + k.length) 2097152
            - (roundUpToMultiple b.length 512 + k.length) := by
      rw [e2]
      split <;> omega
    simp only [simple_iso_bytes, simple_iso_writes, raw_image_assembler,
      iso_min_size, List.flatten_cons, List.flatten_nil, List.append_nil]
    rw [e3, pad_to_sector_eq]
    simp [List.append_assoc]

end MiniOS
